import Mathlib

/-!
# Verification of the log-analysis core of `fetch_github_actions_logs.py`

This file embeds the `analyze_log_errors` function of the repository
(`src/fetch_github_actions_logs.py`, lines 330-561) as executable Lean
definitions and proves/refutes the frozen claims about it.

Strings are modelled at the character level (`List Char` under `String`),
matching Python's character-based indexing, slicing and substring tests.
The regular expressions used by the source are simple enough (literal
alternations, `\d+`, `\w+`, single-line `.*`) that each is modelled by an
explicit scanning function, documented at its definition.
-/

/-- Test whether `pat` occurs as a contiguous sublist of the list. -/
def isSubList (pat : List Char) : List Char → Bool
  | [] => pat.isEmpty
  | c :: rest => pat.isPrefixOf (c :: rest) || isSubList pat rest

/-- Python `pat in s` (substring containment). -/
def strContains (s pat : String) : Bool :=
  isSubList pat.data s.data

/-- Characters counted as `\s` by the model (Python whitespace). -/
def pyWhite (c : Char) : Bool :=
  c = ' ' || c = '\t' || c = '\n' || c = '\r' || c = '\x0b' || c = '\x0c'

/-- Python `s.strip()`: drop whitespace from both ends. -/
def strip (s : String) : String :=
  ⟨((s.data.dropWhile pyWhite).reverse.dropWhile pyWhite).reverse⟩

/-- Python `s[:n]`: first `n` characters. -/
def strTake (s : String) (n : Nat) : String :=
  ⟨s.data.take n⟩

/-- Python `s.startswith(pre)`. -/
def strStartsWith (s pre : String) : Bool :=
  pre.data.isPrefixOf s.data

/-- Python `s.lower()` (ASCII case folding, as used on ASCII log markers). -/
def strLower (s : String) : String :=
  ⟨s.data.map Char.toLower⟩

/-- The suffix of `l` after the first occurrence of `pat`, if `pat` occurs. -/
def dropAfterFirst (pat : List Char) : List Char → Option (List Char)
  | [] => if pat.isEmpty then some [] else none
  | c :: rest =>
    if pat.isPrefixOf (c :: rest) then some ((c :: rest).drop pat.length)
    else dropAfterFirst pat rest

/-- The part of `l` before the first occurrence of `pat`, if `pat` occurs. -/
def beforeFirst (pat : List Char) : List Char → Option (List Char)
  | [] => if pat.isEmpty then some [] else none
  | c :: rest =>
    if pat.isPrefixOf (c :: rest) then some []
    else (beforeFirst pat rest).map (c :: ·)

/-- Model of `re.search(marker ++ "(.+)", line)` for a literal `marker`, as
used for `##[group]` and `##[command]`: the (greedy, to end of line) text
after the first occurrence of the marker, provided it is nonempty.  Lines
never contain a newline, so `(.+)` reaches the end of the line. -/
def afterMarker (line marker : String) : Option String :=
  match dropAfterFirst marker.data line.data with
  | none => none
  | some t => if t.isEmpty then none else some ⟨t⟩

/-- Model of `re.search(pat ++ "(\\d+)", t)` for a literal `pat` (used with
`"exit code "` and, boolean-only, with `"http "`): scan occurrences of the
literal left to right and return the maximal digit run following the first
occurrence that is followed by at least one digit. -/
def digitsAfterFirstMatch (pat : List Char) : List Char → Option (List Char)
  | [] => none
  | c :: rest =>
    if pat.isPrefixOf (c :: rest) then
      match (c :: rest).drop pat.length with
      | [] => digitsAfterFirstMatch pat rest
      | d :: ds =>
        if d.isDigit then some ((d :: ds).takeWhile Char.isDigit)
        else digitsAfterFirstMatch pat rest
    else digitsAfterFirstMatch pat rest

/-- Model of `re.search(r'exit code (\d+)', line)`: the captured digit group. -/
def exitCodeMatch (line : String) : Option String :=
  (digitsAfterFirstMatch "exit code ".data line.data).map (⟨·⟩)

/-- Replace every (non-overlapping, left-to-right) occurrence of the nonempty
pattern `p :: ps` by `r`, as Python `str.replace` does.  `skip` counts the
characters of a just-matched occurrence still to be consumed, keeping the
recursion structural on the scanned list. -/
def replaceAllAux (p : Char) (ps r : List Char) : Nat → List Char → List Char
  | _, [] => []
  | skip + 1, _ :: rest => replaceAllAux p ps r skip rest
  | 0, c :: rest =>
    if (p :: ps).isPrefixOf (c :: rest) then
      r ++ replaceAllAux p ps r ps.length rest
    else
      c :: replaceAllAux p ps r 0 rest

/-- Python `s.replace(pattern, replacement)`; every call site of the source
uses a nonempty pattern, so the empty-pattern case just returns `s`. -/
def strReplace (s pattern replacement : String) : String :=
  match pattern.data with
  | [] => s
  | p :: ps => ⟨replaceAllAux p ps replacement.data 0 s.data⟩

/-- Python `s.split(sep)` for a single-character separator (the source only
splits on `'\n'`): keeps empty pieces, one more piece than separators. -/
def splitOnChar (sep : Char) : List Char → List (List Char)
  | [] => [[]]
  | c :: rest =>
    if c = sep then [] :: splitOnChar sep rest
    else
      match splitOnChar sep rest with
      | [] => [[c]]
      | piece :: pieces => (c :: piece) :: pieces

/-- Python `logs.split('\n')` from line 339 of the source. -/
def splitLines (logs : String) : List String :=
  (splitOnChar '\n' logs.data).map (⟨·⟩)

/-- Python `'\n'.join(lines)`. -/
def joinLines : List String → String
  | [] => ""
  | [x] => x
  | x :: y :: rest => x ++ "\n" ++ joinLines (y :: rest)

/-- Python truthiness of the `current_step` variable (`None` and `""` are
falsy; the source tests `if current_step:` / `if not current_step:`). -/
def truthy : Option String → Bool
  | none => false
  | some s => !s.data.isEmpty

/-- Python `\w` on ASCII text: letters, digits, underscore. -/
def wordChar (c : Char) : Bool :=
  c.isAlphanum || c = '_'

/-- Model of `re.match(r'^\s*\w+TAG', line)` for `TAG` one of `Error:`,
`Exception:`, `Warning:`: after leading whitespace there is a nonempty run
of word characters directly followed by the tag.  Because each tag contains
`':'` (not a word character), only the first occurrence of the tag can be
preceded by word characters only, so checking the first occurrence is
complete with respect to the regex's backtracking. -/
def matchWordTag (line tag : String) : Bool :=
  let t := line.data.dropWhile pyWhite
  match beforeFirst tag.data t with
  | none => false
  | some pre => !pre.isEmpty && pre.all wordChar

/-- Model of `re.search(a ++ ".*" ++ b, text)` for literals `a`, `b` on a
multi-line `text` without `re.DOTALL`: some line contains an occurrence of
`a` whose end is followed (possibly not immediately) by `b`. -/
def seqSameLine (a b text : String) : Bool :=
  (splitOnChar '\n' text.data).any fun ln =>
    match dropAfterFirst a.data ln with
    | none => false
    | some suffixChars => isSubList b.data suffixChars

example : strContains "abc##[group]xyz" "##[group]" = true := by decide
example : afterMarker "##[group] Build it " "##[group]" = some " Build it " := by decide
example : afterMarker "##[group]" "##[group]" = none := by decide
example : strip "  hi there\t" = "hi there" := by decide
example : exitCodeMatch "Process completed with exit code 12." = some "12" := by decide
example : exitCodeMatch "exit code x exit code 7" = some "7" := by decide
example : strReplace "a##[error]b##[error]c" "##[error]" "" = "abc" := by decide
example : splitLines "a\nb\n" = ["a", "b", ""] := by decide
example : joinLines ["a", "b", ""] = "a\nb\n" := by decide
example : matchWordTag "  ValueError: bad" "Error:" = true := by decide
example : matchWordTag "Error: bad" "Error:" = false := by decide
example : matchWordTag "x yError: bad" "Error:" = false := by decide
example : seqSameLine "assert" "failed" "x\nmy assert has failed\ny" = true := by decide
example : seqSameLine "assert" "failed" "my assert\nfailed" = false := by decide

/-!
## Data model

State of the single-pass loop of `analyze_log_errors`
(`src/fetch_github_actions_logs.py`, lines 346-352).
-/

/-- One entry of `failed_steps`: `{'name': ..., 'errors': [...]}`. -/
structure FailedStep where
  name : String
  errors : List String
deriving Repr, DecidableEq

/-- The mutable locals of the analysis loop. -/
structure AState where
  current_step : Option String
  step_stack : List String
  failed_steps : List FailedStep
  error_messages : List String
  in_error_section : Bool
  error_context : List String
  exit_codes : List (String × Option String)
deriving Repr, DecidableEq

/-- Initial values of the loop locals (lines 346-352). -/
def initState : AState :=
  { current_step := none
    step_stack := []
    failed_steps := []
    error_messages := []
    in_error_section := false
    error_context := []
    exit_codes := [] }

/-!
## Per-step-record helpers

Each models one of the find-first-by-name loops over `failed_steps`.
-/

/-- Lines 386-394: on an error marker, append `text` to the first step named
`name` (no duplicate check), or create the step with `[text]`. -/
def appendErrorMarker (name text : String) : List FailedStep → List FailedStep
  | [] => [⟨name, [text]⟩]
  | s :: rest =>
    if s.name = name then { s with errors := s.errors ++ [text] } :: rest
    else s :: appendErrorMarker name text rest

/-- Lines 414-421: on a non-zero exit code, create the step with the exit
message only if no step of that name exists yet. -/
def ensureExitStep (name msg : String) : List FailedStep → List FailedStep
  | [] => [⟨name, [msg]⟩]
  | s :: rest => if s.name = name then s :: rest else s :: ensureExitStep name msg rest

/-- Lines 426-433: on traceback detection, create the step with an empty
error list if it does not exist yet. -/
def ensureTbStep (name : String) : List FailedStep → List FailedStep
  | [] => [⟨name, []⟩]
  | s :: rest => if s.name = name then s :: rest else s :: ensureTbStep name rest

/-- First 1000 characters of a traceback block (line 470). -/
def tbPreview (tb_text : String) : String :=
  strTake tb_text 1000

/-- Lines 466-473: append the 1000-character traceback preview to the first
step named `name`, only if not already present verbatim; no step is created
if none matches. -/
def addTbPreview (name preview : String) : List FailedStep → List FailedStep
  | [] => []
  | s :: rest =>
    if s.name = name then
      (if preview ∈ s.errors then s else { s with errors := s.errors ++ [preview] }) :: rest
    else s :: addTbPreview name preview rest

/-- Lines 478-487: on a test-failure line, append the stripped line truncated
to 200 characters if the (untruncated) stripped line is not yet present, or
create the step with the truncated line. -/
def addTestFailure (name stripped : String) : List FailedStep → List FailedStep
  | [] => [⟨name, [strTake stripped 200]⟩]
  | s :: rest =>
    if s.name = name then
      (if stripped ∈ s.errors then s else { s with errors := s.errors ++ [strTake stripped 200] }) :: rest
    else s :: addTestFailure name stripped rest

/-!
## Line handlers

One definition per `if`-block of the loop body (lines 354-487), applied in
source order with the state threaded through; all blocks inspect the same
line, later blocks seeing state updates of earlier ones, exactly as the
Python locals do.
-/

/-- Lines 356-361: `##[group]` pushes the trimmed step name and makes it the
current step. -/
def handleGroup (line : String) (st : AState) : AState :=
  if strContains line "##[group]" then
    match afterMarker line "##[group]" with
    | some g =>
      let step_name := strip g
      { st with step_stack := st.step_stack ++ [step_name], current_step := some step_name }
    | none => st
  else st

/-- Lines 364-367: `##[endgroup]` pops the stack if non-empty and resets the
current step to the new top (or `None` when the stack became empty); an
empty stack leaves everything unchanged. -/
def handleEndgroup (line : String) (st : AState) : AState :=
  if strContains line "##[endgroup]" then
    if st.step_stack.isEmpty then st
    else
      let stack2 := st.step_stack.dropLast
      { st with step_stack := stack2, current_step := stack2.getLast? }
  else st

/-- Synthetic step name for a bare command (line 376). -/
def commandStepName (cmd : String) : String :=
  "Command: " ++ strTake cmd 50

/-- Lines 370-376: `##[command]` sets a synthetic current step only when the
current step is falsy; the stack is not touched. -/
def handleCommand (line : String) (st : AState) : AState :=
  if strContains line "##[command]" then
    match afterMarker line "##[command]" with
    | some c =>
      let cmd := strip c
      if truthy st.current_step then st
      else { st with current_step := some (commandStepName cmd) }
    | none => st
  else st

/-- Lines 379-404: the `##[error]` marker block and its `elif` continuation
collecting error context while `in_error_section`. -/
def handleError (line : String) (st : AState) : AState :=
  if strContains line "##[error]" then
    let error_text := strip (strReplace line "##[error]" "")
    let st1 := { st with in_error_section := true }
    if error_text.data.isEmpty then st1
    else
      let st2 := { st1 with error_messages := st1.error_messages ++ [error_text] }
      let st3 :=
        if truthy st2.current_step then
          { st2 with
              failed_steps := appendErrorMarker (st2.current_step.getD "") error_text st2.failed_steps }
        else st2
      { st3 with error_context := [error_text] }
  else if st.in_error_section then
    if !(strip line).data.isEmpty && !(strStartsWith line "##" || strStartsWith line "2025-") then
      let ec := st.error_context ++ [strip line]
      if ec.length > 8 then { st with error_context := ec, in_error_section := false }
      else { st with error_context := ec }
    else if strContains line "##[group]" || strContains line "##[endgroup]" then
      { st with in_error_section := false }
    else st
  else st

/-- Lines 407-421: exit-code detection; a record is always appended, a failed
step is created only for a non-zero code and a truthy current step. -/
def handleExit (line : String) (st : AState) : AState :=
  if strContains line "Process completed with exit code" then
    match exitCodeMatch line with
    | some code =>
      let st1 := { st with exit_codes := st.exit_codes ++ [(code, st.current_step)] }
      if code ≠ "0" then
        if truthy st1.current_step then
          { st1 with
              failed_steps :=
                ensureExitStep (st1.current_step.getD "")
                  ("Process exited with code " ++ code) st1.failed_steps }
        else st1
      else st1
    | none => st
  else st

/-- Line 424: a traceback block starts on any line containing `Traceback`
or, case-insensitively, `traceback`. -/
def tracebackFires (line : String) : Bool :=
  strContains line "Traceback" || strContains (strLower line) "traceback"

/-- Lines 443-446: a scanned line ends the traceback when it matches one of
`^\s*\w+Error:`, `^\s*\w+Exception:`, `^\s*\w+Warning:` or contains
`Error:`, `Exception:` or `Warning:` anywhere. -/
def exceptionLine (next_line : String) : Bool :=
  matchWordTag next_line "Error:" || matchWordTag next_line "Exception:" ||
  matchWordTag next_line "Warning:" ||
  strContains next_line "Error:" || strContains next_line "Exception:" ||
  strContains next_line "Warning:"

/-- Lines 449-453: after the exception line, absorb further lines while they
are non-empty and do not start (stripped) with `##`; `fuel` is the number
of remaining iterations of `range(j + 1, min(j + 5, len(lines)))`. -/
def tbContext (lines : List String) (k : Nat) : Nat → List String
  | 0 => []
  | fuel + 1 =>
    let lk := lines.getD k ""
    if !(strip lk).data.isEmpty && !strStartsWith (strip lk) "##" then
      lk :: tbContext lines (k + 1) fuel
    else []

/-- Lines 438-460: the forward scan collecting `tb_lines`; `fuel` is the
number of remaining iterations of `range(i + 1, min(i + 40, len(lines)))`.
The marker-break guard also tests `exception_found`, but that flag is set
only immediately before a `break`, so it is always false at the guard and
is omitted here.  The last-3-captured-lines window includes the line just
appended, as in the source. -/
def tbLoop (lines : List String) (j : Nat) (tb_lines : List String) : Nat → List String
  | 0 => tb_lines
  | fuel + 1 =>
    let next_line := lines.getD j ""
    let tb2 := tb_lines ++ [next_line]
    if exceptionLine next_line then
      tb2 ++ tbContext lines (j + 1) (min (j + 5) lines.length - (j + 1))
    else if strContains next_line "##[" && !strContains next_line "Traceback" &&
            !strContains next_line "File \"" &&
            !((tb2.reverse.take 3).any (fun prev_line => strContains prev_line "File \"")) then
      tb2
    else
      tbLoop lines (j + 1) tb2 fuel

/-- Lines 426-473 minus the forward scan: ensure a step exists for a truthy
current step, join the first 30 captured lines into the traceback text,
append it to `error_messages`, and store its 1000-character preview in the
current step's errors (deduplicated).  The captured lines (starting with
the detecting line itself, as `tb_lines = [line]` does) are passed in so
that the checked (`Option`-valued) variant below can share this code. -/
def tbAssemble (tb_lines : List String) (st : AState) : AState :=
  let st1 :=
    if truthy st.current_step then
      { st with failed_steps := ensureTbStep (st.current_step.getD "") st.failed_steps }
    else st
  let tb_text := joinLines (tb_lines.take 30)
  let st2 := { st1 with error_messages := st1.error_messages ++ [tb_text] }
  if truthy st2.current_step then
    { st2 with
        failed_steps := addTbPreview (st2.current_step.getD "") (tbPreview tb_text) st2.failed_steps }
  else st2

/-- Lines 424-473: the full traceback block for line `i`. -/
def handleTraceback (lines : List String) (i : Nat) (line : String) (st : AState) : AState :=
  if tracebackFires line then
    tbAssemble (tbLoop lines (i + 1) [line] (min (i + 40) lines.length - (i + 1))) st
  else st

/-- Line 476: `re.search(r'(FAILED|ERROR|FAIL)', line)` (case-sensitive) and
a case-insensitive `test`/`pytest` somewhere in the line. -/
def testFailureFires (line : String) : Bool :=
  (strContains line "FAILED" || strContains line "ERROR" || strContains line "FAIL") &&
  (strContains (strLower line) "test" || strContains (strLower line) "pytest")

/-- Lines 476-487: test-failure attribution to the truthy current step. -/
def handleTestFailure (line : String) (st : AState) : AState :=
  if testFailureFires line then
    if truthy st.current_step then
      { st with failed_steps := addTestFailure (st.current_step.getD "") (strip line) st.failed_steps }
    else st
  else st

/-- The loop body for index `i` (lines 354-487): all blocks applied in source
order to the same line. -/
def processLine (lines : List String) (i : Nat) (st : AState) : AState :=
  let line := lines.getD i ""
  let st1 := handleGroup line st
  let st2 := handleEndgroup line st1
  let st3 := handleCommand line st2
  let st4 := handleError line st3
  let st5 := handleExit line st4
  let st6 := handleTraceback lines i line st5
  handleTestFailure line st6

/-- The state after the full `for i, line in enumerate(lines)` loop. -/
def analyzeState (logs : String) : AState :=
  let lines := splitLines logs
  (List.range lines.length).foldl (fun st i => processLine lines i st) initState

example :
    (analyzeState "##[group]Build\n##[error]Compile failed\n##[endgroup]").failed_steps =
      [⟨"Build", ["Compile failed"]⟩] := by decide
example :
    (analyzeState "##[group]Build\n##[error]X\n##[error]X").failed_steps =
      [⟨"Build", ["X", "X"]⟩] := by decide
example :
    (analyzeState "Process completed with exit code 1").exit_codes = [("1", none)] := by decide
example :
    (analyzeState "Process completed with exit code 1").failed_steps = [] := by decide

/-!
## Summary renderer (lines 339-344 and 489-561)
-/

/-- Python `"=" * 80` (lines 341, 343, 556, 558). -/
def eq80 : String :=
  ⟨List.replicate 80 '='⟩

/-- Python `"-" * 80` (section separators). -/
def dash80 : String :=
  ⟨List.replicate 80 '-'⟩

/-- Lines 341-344: the unconditional banner header. -/
def headerLines : List String :=
  [eq80, "ERROR SUMMARY - Issues Found in This Workflow Run", eq80, ""]

/-- Lines 556-559: the unconditional trailer. -/
def trailerLines : List String :=
  [eq80, "Full log follows below:", eq80, ""]

/-- Line 498: first-error preview of a failed step, newline-collapsed,
stripped, first 250 characters. -/
def errorPreview (first_error : String) : String :=
  strTake (strip (strReplace first_error "\n" " ")) 250

/-- Lines 494-501: the lines printed for one failed step. -/
def stepLines (step : FailedStep) : List String :=
  ["  • " ++ step.name] ++
  (match step.errors with
   | [] => []
   | first_error :: _ =>
     ["    Error: " ++ errorPreview first_error] ++
     (if step.errors.length > 1 then
        ["    (" ++ toString step.errors.length ++ " more error(s) - see full log)"]
      else []))

/-- Lines 490-502: the FAILED STEPS section, emitted only when non-empty. -/
def failedStepsSection (failed_steps : List FailedStep) : List String :=
  if failed_steps.isEmpty then []
  else ["FAILED STEPS:", dash80] ++ (failed_steps.map stepLines).flatten ++ [""]

/-- Line 508 without the ellipsis: newline-collapsed, stripped, first 300
characters of a key error message. -/
def keyErrorPreview (error : String) : String :=
  strTake (strip (strReplace error "\n" " ")) 300

/-- Lines 508-510: the preview plus `"..."` exactly when the original
message is longer than 300 characters. -/
def keyErrorClean (error : String) : String :=
  if error.length > 300 then keyErrorPreview error ++ "..." else keyErrorPreview error

/-- Line 511: `f"  {i}. {error_clean}"` with the 1-based index. -/
def keyErrorLine (i : Nat) (error : String) : String :=
  "  " ++ toString i ++ ". " ++ keyErrorClean error

/-- Lines 504-512: the KEY ERROR MESSAGES section (first 5 messages). -/
def keyErrorsSection (error_messages : List String) : List String :=
  if error_messages.isEmpty then []
  else
    ["KEY ERROR MESSAGES:", dash80] ++
      ((error_messages.take 5).enum.map fun p => keyErrorLine (p.1 + 1) p.2) ++ [""]

/-- Lines 515-526: the fixed ordered pattern table.  Each matcher models the
source regex applied with `re.IGNORECASE` to the lower-cased full log, so
all literal fragments appear lower-cased; `.*` never crosses a newline. -/
def failure_patterns : List ((String → Bool) × String) :=
  [ (fun t => strContains t "importerror" || strContains t "cannot import",
      "Import error detected"),
    (fun t => strContains t "attributeerror" || strContains t "has no attribute",
      "Attribute error detected"),
    (fun t => strContains t "typeerror" || strContains t "unsupported operand",
      "Type error detected"),
    (fun t => strContains t "valueerror" || strContains t "invalid value",
      "Value error detected"),
    (fun t => strContains t "connectionerror" || strContains t "connection refused" ||
        strContains t "connection timeout",
      "Connection error detected"),
    (fun t => strContains t "timeouterror" || strContains t "timed out",
      "Timeout error detected"),
    (fun t => strContains t "assertionerror" || seqSameLine "assert" "failed" t,
      "Test assertion failed"),
    (fun t => strContains t "httperror" || (digitsAfterFirstMatch "http ".data t.data).isSome,
      "HTTP error detected"),
    (fun t => strContains t "database error" || seqSameLine "database" "error" t ||
        seqSameLine "psql" "error" t,
      "Database error detected"),
    (fun t => seqSameLine "test" "failed" t || seqSameLine "pytest" "failed" t,
      "Test failure detected") ]

/-- Lines 528-532: the Pattern Matcher — descriptions of the table entries
whose regex matches the lower-cased log, in table order, at most once each. -/
def detectPatterns (logs : String) : List String :=
  let logs_lower := strLower logs
  (failure_patterns.filter fun p => p.1 logs_lower).map (fun p => p.2)

/-- Lines 534-539: the DETECTED ISSUE TYPES section. -/
def detectedSection (detected_patterns : List String) : List String :=
  if detected_patterns.isEmpty then []
  else
    ["DETECTED ISSUE TYPES:", dash80] ++
      (detected_patterns.map fun p => "  • " ++ p) ++ [""]

/-- Lines 541-549: the NON-ZERO EXIT CODES section (first 5 non-zero
records; a falsy step renders as `Unknown step`). -/
def exitSection (exit_codes : List (String × Option String)) : List String :=
  if exit_codes.isEmpty then []
  else
    let non_zero := exit_codes.filter fun ec => ec.1 ≠ "0"
    if non_zero.isEmpty then []
    else
      ["NON-ZERO EXIT CODES:", dash80] ++
        ((non_zero.take 5).map fun ec =>
          "  • Exit code " ++ ec.1 ++ " in: " ++
            (if truthy ec.2 then ec.2.getD "" else "Unknown step")) ++ [""]

/-- Lines 551-554: the fallback block, emitted exactly when `failed_steps`,
`error_messages` and `exit_codes` are all empty (detected patterns play no
role in this condition, and zero exit codes suppress it). -/
def fallbackLines (st : AState) : List String :=
  if st.failed_steps.isEmpty && st.error_messages.isEmpty && st.exit_codes.isEmpty then
    ["No explicit errors detected in log format.",
     "Check the full log below for details.", ""]
  else []

/-- The content-conditional middle sections, in source order. -/
def midLines (logs : String) (st : AState) : List String :=
  failedStepsSection st.failed_steps ++
  keyErrorsSection st.error_messages ++
  detectedSection (detectPatterns logs) ++
  exitSection st.exit_codes ++
  fallbackLines st

/-- All summary lines in order (lines 339-559). -/
def summaryLines (logs : String) (st : AState) : List String :=
  headerLines ++ midLines logs st ++ trailerLines

/-- The function `analyze_log_errors` (lines 330-561): the rendered summary string. -/
def analyze_log_errors (logs : String) : String :=
  joinLines (summaryLines logs (analyzeState logs))

example : detectPatterns "timed out" = ["Timeout error detected"] := by decide
example :
    "No explicit errors detected in log format." ∈
      summaryLines "timed out" (analyzeState "timed out") := by decide
example :
    "DETECTED ISSUE TYPES:" ∈ summaryLines "timed out" (analyzeState "timed out") := by decide

/-!
## Checked (`Option`-valued) variant of the loop

`analyze_log_errors` contains three operations that would raise in Python on
a bad index: `step_stack.pop()` (guarded by `if step_stack:`), and the
forward index accesses `lines[j]` / `lines[k]` of the traceback scan (kept
in range by the `range(..., min(..., len(lines)))` bounds).  The variant
below makes each of them `Option`-valued, returning `none` exactly where
Python would raise; proving it always returns `some` of the total result
settles the never-raises claim.
-/

/-- Python `step_stack.pop()`: raises (`none`) on an empty list. -/
def popChecked : List String → Option (List String)
  | [] => none
  | a :: rest => some ((a :: rest).dropLast)

/-- Variant of `handleEndgroup` with the pop checked. -/
def handleEndgroupChecked (line : String) (st : AState) : Option AState :=
  if strContains line "##[endgroup]" then
    if st.step_stack.isEmpty then some st
    else
      match popChecked st.step_stack with
      | none => none
      | some stack2 => some { st with step_stack := stack2, current_step := stack2.getLast? }
  else some st

/-- Variant of `tbContext` with `lines[k]` checked. -/
def tbContextChecked (lines : List String) (k : Nat) : Nat → Option (List String)
  | 0 => some []
  | fuel + 1 =>
    match lines[k]? with
    | none => none
    | some lk =>
      if !(strip lk).data.isEmpty && !strStartsWith (strip lk) "##" then
        match tbContextChecked lines (k + 1) fuel with
        | none => none
        | some r => some (lk :: r)
      else some []

/-- Variant of `tbLoop` with `lines[j]` checked. -/
def tbLoopChecked (lines : List String) (j : Nat) (tb_lines : List String) :
    Nat → Option (List String)
  | 0 => some tb_lines
  | fuel + 1 =>
    match lines[j]? with
    | none => none
    | some next_line =>
      let tb2 := tb_lines ++ [next_line]
      if exceptionLine next_line then
        match tbContextChecked lines (j + 1) (min (j + 5) lines.length - (j + 1)) with
        | none => none
        | some ctx => some (tb2 ++ ctx)
      else if strContains next_line "##[" && !strContains next_line "Traceback" &&
              !strContains next_line "File \"" &&
              !((tb2.reverse.take 3).any (fun prev_line => strContains prev_line "File \"")) then
        some tb2
      else
        tbLoopChecked lines (j + 1) tb2 fuel

/-- Variant of `handleTraceback` with the forward scan checked. -/
def handleTracebackChecked (lines : List String) (i : Nat) (line : String) (st : AState) :
    Option AState :=
  if tracebackFires line then
    (tbLoopChecked lines (i + 1) [line] (min (i + 40) lines.length - (i + 1))).map
      (fun tb_lines => tbAssemble tb_lines st)
  else some st

/-- The loop body with all raising operations checked. -/
def processLineChecked (lines : List String) (i : Nat) (st : AState) : Option AState :=
  match lines[i]? with
  | none => none
  | some line =>
    let st1 := handleGroup line st
    match handleEndgroupChecked line st1 with
    | none => none
    | some st2 =>
      let st3 := handleCommand line st2
      let st4 := handleError line st3
      let st5 := handleExit line st4
      match handleTracebackChecked lines i line st5 with
      | none => none
      | some st6 => some (handleTestFailure line st6)

/-- The full loop with all raising operations checked. -/
def analyzeStateChecked (logs : String) : Option AState :=
  let lines := splitLines logs
  (List.range lines.length).foldlM (fun st i => processLineChecked lines i st) initState

/-- Variant of `analyze_log_errors` with all raising operations checked. -/
def analyze_log_errorsChecked (logs : String) : Option String :=
  match analyzeStateChecked logs with
  | none => none
  | some st => some (joinLines (summaryLines logs st))

/-- A line that fires none of the loop's seven trigger tests (source lines
356, 364, 370, 379, 407, 424, 476) — a log made only of such lines carries
no recognized marker or failure signal. -/
def quietLine (line : String) : Bool :=
  !strContains line "##[group]" && !strContains line "##[endgroup]" &&
  !strContains line "##[command]" && !strContains line "##[error]" &&
  !strContains line "Process completed with exit code" &&
  !tracebackFires line && !testFailureFires line

/-!
## The checked variant never fails
-/

lemma getElem?_eq_some_getD (l : List String) (i : Nat) (h : i < l.length) :
    l[i]? = some (l.getD i "") := by
  simp [List.getD, List.getElem?_eq_getElem h]

lemma handleEndgroupChecked_eq (line : String) (st : AState) :
    handleEndgroupChecked line st = some (handleEndgroup line st) := by
  unfold handleEndgroupChecked handleEndgroup
  cases h : st.step_stack with
  | nil => simp [h]
  | cons a rest =>
    simp only [h, popChecked, List.isEmpty_cons]
    split <;> rfl

lemma tbContextChecked_eq (lines : List String) :
    ∀ (fuel k : Nat), k + fuel ≤ lines.length →
      tbContextChecked lines k fuel = some (tbContext lines k fuel) := by
  intro fuel
  induction fuel with
  | zero => intro k _; rfl
  | succ n ih =>
    intro k h
    have hk : k < lines.length := by omega
    simp only [tbContextChecked, tbContext, getElem?_eq_some_getD lines k hk]
    rw [ih (k + 1) (by omega)]
    split <;> rfl

lemma tbLoopChecked_eq (lines : List String) :
    ∀ (fuel j : Nat) (tb_lines : List String), j + fuel ≤ lines.length →
      tbLoopChecked lines j tb_lines fuel = some (tbLoop lines j tb_lines fuel) := by
  intro fuel
  induction fuel with
  | zero => intro j tb _; rfl
  | succ n ih =>
    intro j tb h
    have hj : j < lines.length := by omega
    simp only [tbLoopChecked, tbLoop, getElem?_eq_some_getD lines j hj]
    rw [tbContextChecked_eq lines (min (j + 5) lines.length - (j + 1)) (j + 1) (by omega),
      ih (j + 1) (tb ++ [lines.getD j ""]) (by omega)]
    split
    · rfl
    · split <;> rfl

lemma handleTracebackChecked_eq (lines : List String) (i : Nat) (h : i < lines.length) :
    ∀ (line : String) (st : AState),
      handleTracebackChecked lines i line st = some (handleTraceback lines i line st) := by
  intro line st
  unfold handleTracebackChecked handleTraceback
  split
  · rw [tbLoopChecked_eq lines (min (i + 40) lines.length - (i + 1)) (i + 1) [line] (by omega)]
    rfl
  · rfl

lemma processLineChecked_eq (lines : List String) (i : Nat) (st : AState)
    (h : i < lines.length) :
    processLineChecked lines i st = some (processLine lines i st) := by
  unfold processLineChecked processLine
  rw [getElem?_eq_some_getD lines i h]
  simp only [handleEndgroupChecked_eq, handleTracebackChecked_eq lines i h]

lemma foldlM_processLineChecked (lines : List String) :
    ∀ (idxs : List Nat) (st : AState), (∀ i ∈ idxs, i < lines.length) →
      List.foldlM (fun st i => processLineChecked lines i st) st idxs =
        some (List.foldl (fun st i => processLine lines i st) st idxs) := by
  intro idxs
  induction idxs with
  | nil => intro st _; rfl
  | cons i rest ih =>
    intro st h
    have hi : i < lines.length := h i (by simp)
    simp only [List.foldlM, List.foldl, processLineChecked_eq lines i st hi]
    exact ih (processLine lines i st) (fun m hm => h m (by simp [hm]))

/-!
## Claims
-/

/-- C1 (counterexample): the claim asserts that no step's error list ever
holds two identical entries, in particular via the error-marker path.  On
the log `##[group]Build`, `##[error]X`, `##[error]X` the error-marker path
(lines 386-394) appends without any duplicate check, so the step `Build`
stores `["X", "X"]`. -/
theorem C1_counterexample :
    ∃ step ∈ (analyzeState "##[group]Build\n##[error]X\n##[error]X").failed_steps,
      ¬ step.errors.Nodup := by decide

/-- C1 (amended): deduplication by exact text holds on the traceback signal
path — storing the same traceback preview twice in one step's error list
leaves a single entry (lines 466-473 guard the append by membership); the
error-marker path appends unconditionally and may store duplicates. -/
theorem C1_amended_tb_dedup (name preview : String) (steps : List FailedStep) :
    addTbPreview name preview (addTbPreview name preview steps) =
      addTbPreview name preview steps := by
  induction steps with
  | nil => rfl
  | cons s rest ih =>
    by_cases hn : s.name = name
    · by_cases hp : preview ∈ s.errors
      · simp [addTbPreview, hn, hp]
      · simp [addTbPreview, hn, hp, List.mem_append]
    · simp [addTbPreview, hn, ih]

/-- C2 (counterexample): for the log `Process completed with exit code 1`
with no open group, the exit-code record `("1", absent)` is produced, but —
contrary to the claim — no `FailedStep` is created, because the step
creation at lines 413-421 is guarded by a truthy `current_step`. -/
theorem C2_counterexample :
    (analyzeState "Process completed with exit code 1").exit_codes = [("1", none)] ∧
    (analyzeState "Process completed with exit code 1").failed_steps = [] := by decide

/-- C2 (amended): with no current step the non-zero exit code yields only
the `("1", absent)` record and no `FailedStep`; the `FailedStep` with
message `Process exited with code 1` is created only when a current step is
present (here the open group `Build`). -/
theorem C2_amended :
    ((analyzeState "Process completed with exit code 1").exit_codes = [("1", none)] ∧
      (analyzeState "Process completed with exit code 1").failed_steps = []) ∧
    (analyzeState "##[group]Build\nProcess completed with exit code 1").failed_steps =
      [⟨"Build", ["Process exited with code 1"]⟩] := by decide

/-- C4 (counterexample): after `##[command]foo` (which sets a synthetic
current step without pushing) and a `##[endgroup]` on the empty stack, the
current step is NOT absent: the pop branch (lines 364-367) only runs when
the stack is non-empty and never resets `current_step`. -/
theorem C4_counterexample :
    (analyzeState "##[command]foo\n##[endgroup]").step_stack = [] ∧
    (analyzeState "##[command]foo\n##[endgroup]").current_step = some "Command: foo" := by
  decide

/-- C4 (amended): a group-close marker seen while the step stack is empty is
a no-op on the entire loop state — the stack stays empty and the current
step retains its previous value (possibly a synthetic command step), not
necessarily absent. -/
theorem C4_amended (line : String) (st : AState) (h : st.step_stack = []) :
    handleEndgroup line st = st := by
  unfold handleEndgroup
  simp [h]

/-- Witness for `C4_amended` at a concrete input. -/
theorem C4_amended_witness :
    initState.step_stack = [] ∧ handleEndgroup "##[endgroup]" initState = initState :=
  ⟨rfl, C4_amended "##[endgroup]" initState rfl⟩

/-- C5: `analyze_log_errors` terminates normally and returns a summary
string on every input: the checked variant — which returns `none` exactly
where Python would raise (unguarded pop, out-of-range index) — always
returns `some` of the total function's result. -/
theorem C5_never_raises (logs : String) :
    analyze_log_errorsChecked logs = some (analyze_log_errors logs) := by
  unfold analyze_log_errorsChecked analyze_log_errors analyzeStateChecked analyzeState
  rw [foldlM_processLineChecked (splitLines logs) (List.range (splitLines logs).length)
    initState (fun i hi => List.mem_range.mp hi)]

/-- C7: on the spec's example log the captured traceback block contains all
three lines and nothing further; on a variant with trailing lines the scan
additionally absorbs the immediately following non-empty, non-marker
context line and stops before later content. -/
theorem C7_traceback_capture :
    (analyzeState
        "Traceback (most recent call last):\n  File \"a.py\", line 1\nValueError: bad\n").error_messages =
      ["Traceback (most recent call last):\n  File \"a.py\", line 1\nValueError: bad"] ∧
    (analyzeState
        "Traceback (most recent call last):\n  File \"a.py\", line 1\nValueError: bad\ncontext\n\nbeyond").error_messages =
      ["Traceback (most recent call last):\n  File \"a.py\", line 1\nValueError: bad\ncontext"] := by
  decide

/-- C10: a traceback line seen while the current step is absent appends the
captured block to `error_messages` but leaves `failed_steps` unchanged — no
anonymous or placeholder failed step is created (the step-creating and
step-appending branches at lines 425-433 and 466-473 are guarded by a
truthy `current_step`). -/
theorem C10_traceback_no_step (lines : List String) (i : Nat) (line : String) (st : AState)
    (hfire : tracebackFires line = true) (hcs : st.current_step = none) :
    (handleTraceback lines i line st).failed_steps = st.failed_steps ∧
    (handleTraceback lines i line st).error_messages =
      st.error_messages ++
        [joinLines ((tbLoop lines (i + 1) [line] (min (i + 40) lines.length - (i + 1))).take 30)] := by
  unfold handleTraceback tbAssemble
  simp [hfire, hcs, truthy]

/-- Witness for `C10_traceback_no_step` at a concrete input. -/
theorem C10_traceback_no_step_witness :
    tracebackFires "Traceback" = true ∧ initState.current_step = none ∧
    ((handleTraceback ["Traceback"] 0 "Traceback" initState).failed_steps =
        initState.failed_steps ∧
      (handleTraceback ["Traceback"] 0 "Traceback" initState).error_messages =
        initState.error_messages ++
          [joinLines ((tbLoop ["Traceback"] (0 + 1) ["Traceback"]
            (min (0 + 40) (List.length ["Traceback"]) - (0 + 1))).take 30)]) :=
  ⟨by decide, rfl, C10_traceback_no_step ["Traceback"] 0 "Traceback" initState (by decide) rfl⟩

lemma strTake_length_le (s : String) (n : Nat) : (strTake s n).length ≤ n := by
  have h : (strTake s n).length = (s.data.take n).length := rfl
  rw [h, List.length_take]
  exact Nat.min_le_left _ _

/-- C6: no rendered error preview exceeds its documented cap — 250 for the
failed-step first-error preview (line 498), 300 for the key-error preview
(line 508; the rendered line additionally carries a 3-character `...`
marker exactly when the original message exceeded 300 characters), 200 for
the stored test-failure line (lines 484, 487, where `strTake (strip l) 200`
is the stored text), 50 for the synthetic command-step name after the
`Command: ` prefix (line 376), and 1000 for the traceback preview stored in
a step's errors (line 470). -/
theorem C6_truncation_caps (e k l c t : String) :
    (errorPreview e).length ≤ 250 ∧
    (keyErrorPreview k).length ≤ 300 ∧
    (keyErrorClean k).length ≤ 300 + ("..." : String).length ∧
    (strTake (strip l) 200).length ≤ 200 ∧
    (commandStepName c).length ≤ ("Command: " : String).length + 50 ∧
    (tbPreview t).length ≤ 1000 := by
  refine ⟨strTake_length_le _ _, strTake_length_le _ _, ?_, strTake_length_le _ _, ?_,
    strTake_length_le _ _⟩
  · unfold keyErrorClean
    split
    · rw [String.length_append]
      have := strTake_length_le (strip (strReplace k "\n" " ")) 300
      unfold keyErrorPreview
      omega
    · have := strTake_length_le (strip (strReplace k "\n" " ")) 300
      unfold keyErrorPreview
      omega
  · unfold commandStepName
    rw [String.length_append]
    have := strTake_length_le c 50
    omega

/-- C8: the Pattern Matcher is a pure function of the log text (running it
twice on the same text is the same run), its result is a sublist of the
fixed table's descriptions — so descriptions appear in table order — and,
the table's descriptions being pairwise distinct, each appears at most once
regardless of how many times its regex matches. -/
theorem C8_pattern_matcher (t : String) :
    detectPatterns t = detectPatterns t ∧
    List.Sublist (detectPatterns t) (failure_patterns.map (fun p => p.2)) ∧
    (detectPatterns t).Nodup := by
  have hsub : List.Sublist (detectPatterns t) (failure_patterns.map (fun p => p.2)) := by
    show List.Sublist
      ((failure_patterns.filter fun p => p.1 (strLower t)).map (fun p => p.2))
      (failure_patterns.map (fun p => p.2))
    exact List.Sublist.map _ (List.filter_sublist _)
  have hnd : (failure_patterns.map (fun p => p.2)).Nodup := by decide
  exact ⟨rfl, hsub, hnd.sublist hsub⟩

lemma strAppend_assoc (a b c : String) : a ++ b ++ c = a ++ (b ++ c) :=
  congrArg String.mk (List.append_assoc a.data b.data c.data)

lemma strAppend_empty (a : String) : a ++ "" = a :=
  congrArg String.mk (List.append_nil a.data)

lemma joinLines_cons_ne (x : String) (l : List String) (h : l ≠ []) :
    joinLines (x :: l) = x ++ "\n" ++ joinLines l := by
  cases l with
  | nil => exact absurd rfl h
  | cons y rest => rfl

lemma joinLines_append_tail (t : List String) (ht : t ≠ []) :
    ∀ l : List String, ∃ p : String, joinLines (l ++ t) = p ++ joinLines t := by
  intro l
  induction l with
  | nil => exact ⟨"", rfl⟩
  | cons x l ih =>
    obtain ⟨p, hp⟩ := ih
    have hlt : l ++ t ≠ [] := by
      intro hcontra
      exact ht (List.append_eq_nil.mp hcontra).2
    refine ⟨x ++ "\n" ++ p, ?_⟩
    rw [List.cons_append, joinLines_cons_ne x (l ++ t) hlt, hp]
    simp only [strAppend_assoc]

/-- C9: for every input the rendered summary begins with the 80-character
`=` banner followed by the `ERROR SUMMARY` title line, and ends with the
`Full log follows below:` line, an 80-character `=` banner and a trailing
empty line — these blocks are unconditional, unlike the middle sections. -/
theorem C9_header_trailer (logs : String) :
    (∃ rest : String,
        analyze_log_errors logs =
          eq80 ++ ("\n" ++ ("ERROR SUMMARY - Issues Found in This Workflow Run" ++
            ("\n" ++ rest)))) ∧
    (∃ pre : String,
        analyze_log_errors logs =
          pre ++ ("Full log follows below:" ++ ("\n" ++ (eq80 ++ "\n")))) ∧
    eq80.length = 80 := by
  refine ⟨?_, ?_, by decide⟩
  · refine ⟨joinLines (eq80 :: "" :: (midLines logs (analyzeState logs) ++ trailerLines)), ?_⟩
    show joinLines (eq80 :: "ERROR SUMMARY - Issues Found in This Workflow Run" :: eq80 :: "" ::
        (midLines logs (analyzeState logs) ++ trailerLines)) = _
    rw [joinLines_cons_ne _ _ (by simp), joinLines_cons_ne _ _ (by simp)]
    simp only [strAppend_assoc]
  · obtain ⟨p, hp⟩ := joinLines_append_tail trailerLines (by simp [trailerLines])
      (headerLines ++ midLines logs (analyzeState logs))
    refine ⟨p ++ (eq80 ++ "\n"), ?_⟩
    show joinLines ((headerLines ++ midLines logs (analyzeState logs)) ++ trailerLines) = _
    rw [hp]
    simp only [trailerLines, joinLines, strAppend_empty, strAppend_assoc]

/-- A string starting with a space is not the fallback line (which starts
with `N`). -/
lemma ne_fb_append (p x : String) (hp : p.data.head? = some ' ') :
    "No explicit errors detected in log format." ≠ p ++ x := by
  intro e
  have hdata : (p ++ x).data = p.data ++ x.data := rfl
  have h2 : ("No explicit errors detected in log format." : String).data.head? = some ' ' := by
    rw [e, hdata]
    cases hd : p.data with
    | nil => rw [hd] at hp; exact absurd hp (by simp)
    | cons a t =>
      rw [hd] at hp
      simp only [List.head?_cons, Option.some.injEq] at hp
      simp [hp]
  exact absurd h2 (by decide)

lemma fb_not_mem_stepLines (s : FailedStep) :
    "No explicit errors detected in log format." ∉ stepLines s := by
  intro hmem
  unfold stepLines at hmem
  rcases List.mem_append.mp hmem with h1 | h2
  · exact ne_fb_append "  • " s.name rfl (List.mem_singleton.mp h1)
  · cases herr : s.errors with
    | nil => rw [herr] at h2; exact absurd h2 (by simp)
    | cons f r =>
      rw [herr] at h2
      rcases List.mem_append.mp h2 with h3 | h4
      · exact ne_fb_append "    Error: " (errorPreview f) rfl (List.mem_singleton.mp h3)
      · split at h4
        · exact ne_fb_append "    ("
            (toString (f :: r).length ++ " more error(s) - see full log)") rfl
            (by simpa only [strAppend_assoc] using List.mem_singleton.mp h4)
        · exact absurd h4 (by simp)

lemma fb_not_mem_failedStepsSection (fs : List FailedStep) :
    "No explicit errors detected in log format." ∉ failedStepsSection fs := by
  intro hmem
  unfold failedStepsSection at hmem
  split at hmem
  · exact absurd hmem (by simp)
  · rcases List.mem_append.mp hmem with h1 | h2
    · rcases List.mem_append.mp h1 with h3 | h4
      · exact absurd h3 (by decide)
      · obtain ⟨l, hl, hfb⟩ := List.mem_flatten.mp h4
        obtain ⟨st, _, rfl⟩ := List.mem_map.mp hl
        exact fb_not_mem_stepLines st hfb
    · exact absurd h2 (by decide)

lemma fb_not_mem_keyErrorsSection (ems : List String) :
    "No explicit errors detected in log format." ∉ keyErrorsSection ems := by
  intro hmem
  unfold keyErrorsSection at hmem
  split at hmem
  · exact absurd hmem (by simp)
  · rcases List.mem_append.mp hmem with h1 | h2
    · rcases List.mem_append.mp h1 with h3 | h4
      · exact absurd h3 (by decide)
      · obtain ⟨p, _, hline⟩ := List.mem_map.mp h4
        exact ne_fb_append "  " (toString (p.1 + 1) ++ ". " ++ keyErrorClean p.2) rfl
          (by simpa only [keyErrorLine, strAppend_assoc] using hline.symm)
    · exact absurd h2 (by decide)

lemma fb_not_mem_detectedSection (ps : List String) :
    "No explicit errors detected in log format." ∉ detectedSection ps := by
  intro hmem
  unfold detectedSection at hmem
  split at hmem
  · exact absurd hmem (by simp)
  · rcases List.mem_append.mp hmem with h1 | h2
    · rcases List.mem_append.mp h1 with h3 | h4
      · exact absurd h3 (by decide)
      · obtain ⟨p, _, hline⟩ := List.mem_map.mp h4
        exact ne_fb_append "  • " p rfl hline.symm
    · exact absurd h2 (by decide)

lemma fb_not_mem_exitSection (ecs : List (String × Option String)) :
    "No explicit errors detected in log format." ∉ exitSection ecs := by
  intro hmem
  unfold exitSection at hmem
  dsimp only at hmem
  split at hmem
  · exact absurd hmem (by simp)
  · split at hmem
    · exact absurd hmem (by simp)
    · rcases List.mem_append.mp hmem with h1 | h2
      · rcases List.mem_append.mp h1 with h3 | h4
        · exact absurd h3 (by decide)
        · obtain ⟨ec, _, hline⟩ := List.mem_map.mp h4
          exact ne_fb_append "  • Exit code "
            (ec.1 ++ " in: " ++ (if truthy ec.2 then ec.2.getD "" else "Unknown step")) rfl
            (by simpa only [strAppend_assoc] using hline.symm)
      · exact absurd h2 (by decide)

/-- The fallback line occurs among the rendered summary lines exactly when
the failed-step list, the error-message list and the exit-code record list
are all empty. -/
lemma fb_mem_summaryLines_iff (logs : String) (st : AState) :
    ("No explicit errors detected in log format." ∈ summaryLines logs st) ↔
      (st.failed_steps = [] ∧ st.error_messages = [] ∧ st.exit_codes = []) := by
  constructor
  · intro hmem
    unfold summaryLines midLines at hmem
    rcases List.mem_append.mp hmem with h1 | htrail
    · rcases List.mem_append.mp h1 with hhead | hmid
      · exact absurd hhead (by decide)
      · rcases List.mem_append.mp hmid with h2 | hfb
        · rcases List.mem_append.mp h2 with h3 | hexit
          · rcases List.mem_append.mp h3 with h4 | hdet
            · rcases List.mem_append.mp h4 with hfs | hkey
              · exact absurd hfs (fb_not_mem_failedStepsSection _)
              · exact absurd hkey (fb_not_mem_keyErrorsSection _)
            · exact absurd hdet (fb_not_mem_detectedSection _)
          · exact absurd hexit (fb_not_mem_exitSection _)
        · unfold fallbackLines at hfb
          split at hfb
          · next hcond =>
            simp only [Bool.and_eq_true, List.isEmpty_iff] at hcond
            exact ⟨hcond.1.1, hcond.1.2, hcond.2⟩
          · exact absurd hfb (by simp)
    · exact absurd htrail (by decide)
  · intro ⟨h1, h2, h3⟩
    unfold summaryLines midLines fallbackLines failedStepsSection keyErrorsSection exitSection
    simp [h1, h2, h3]

lemma quietLine_spec (line : String) (h : quietLine line = true) :
    strContains line "##[group]" = false ∧ strContains line "##[endgroup]" = false ∧
    strContains line "##[command]" = false ∧ strContains line "##[error]" = false ∧
    strContains line "Process completed with exit code" = false ∧
    tracebackFires line = false ∧ testFailureFires line = false := by
  unfold quietLine at h
  simp only [Bool.and_eq_true, Bool.not_eq_true'] at h
  tauto

lemma handleGroup_noop (line : String) (h : strContains line "##[group]" = false)
    (st : AState) : handleGroup line st = st := by
  unfold handleGroup
  simp [h]

lemma handleEndgroup_noop (line : String) (h : strContains line "##[endgroup]" = false)
    (st : AState) : handleEndgroup line st = st := by
  unfold handleEndgroup
  simp [h]

lemma handleCommand_noop (line : String) (h : strContains line "##[command]" = false)
    (st : AState) : handleCommand line st = st := by
  unfold handleCommand
  simp [h]

lemma handleError_noop (line : String) (h : strContains line "##[error]" = false)
    (st : AState) (hies : st.in_error_section = false) : handleError line st = st := by
  unfold handleError
  simp [h, hies]

lemma handleExit_noop (line : String)
    (h : strContains line "Process completed with exit code" = false)
    (st : AState) : handleExit line st = st := by
  unfold handleExit
  simp [h]

lemma handleTraceback_noop (lines : List String) (i : Nat) (line : String)
    (h : tracebackFires line = false) (st : AState) :
    handleTraceback lines i line st = st := by
  unfold handleTraceback
  simp [h]

lemma handleTestFailure_noop (line : String) (h : testFailureFires line = false)
    (st : AState) : handleTestFailure line st = st := by
  unfold handleTestFailure
  simp [h]

/-- A quiet line leaves the loop state untouched (no trigger fires and the
error-context continuation is inert while `in_error_section` is false). -/
lemma processLine_quiet (lines : List String) (i : Nat) (st : AState)
    (hq : quietLine (lines.getD i "") = true) (hies : st.in_error_section = false) :
    processLine lines i st = st := by
  obtain ⟨h1, h2, h3, h4, h5, h6, h7⟩ := quietLine_spec _ hq
  unfold processLine
  dsimp only
  rw [handleGroup_noop _ h1, handleEndgroup_noop _ h2, handleCommand_noop _ h3,
    handleError_noop _ h4 st hies, handleExit_noop _ h5, handleTraceback_noop lines i _ h6,
    handleTestFailure_noop _ h7]

lemma foldl_processLine_quiet (lines : List String) :
    ∀ (idxs : List Nat) (st : AState), st.in_error_section = false →
      (∀ i ∈ idxs, quietLine (lines.getD i "") = true) →
      List.foldl (fun st i => processLine lines i st) st idxs = st := by
  intro idxs
  induction idxs with
  | nil => intro st _ _; rfl
  | cons i rest ih =>
    intro st hies hq
    simp only [List.foldl]
    rw [processLine_quiet lines i st (hq i (by simp)) hies]
    exact ih st hies (fun m hm => hq m (by simp [hm]))

/-- On a log all of whose lines are quiet, the loop state stays initial. -/
lemma analyzeState_quiet (logs : String)
    (hq : ∀ line ∈ splitLines logs, quietLine line = true) :
    analyzeState logs = initState := by
  unfold analyzeState
  refine foldl_processLine_quiet (splitLines logs)
    (List.range (splitLines logs).length) initState rfl ?_
  intro i hi
  exact hq _ (List.getElem?_mem
    (getElem?_eq_some_getD (splitLines logs) i (List.mem_range.mp hi)))

/-- On a log with no recognized markers or failure signals and no matching
failure regex, the rendered line list is exactly the banner header, the
fallback block and the trailer — no other section appears. -/
lemma summaryLines_quiet (logs : String)
    (hq : ∀ line ∈ splitLines logs, quietLine line = true)
    (hp : detectPatterns logs = []) :
    summaryLines logs (analyzeState logs) =
      headerLines ++
        ["No explicit errors detected in log format.",
         "Check the full log below for details.", ""] ++ trailerLines := by
  rw [analyzeState_quiet logs hq]
  unfold summaryLines midLines
  rw [hp]
  decide

/-- C3 (counterexample): on the log `timed out` the DETECTED ISSUE TYPES
section produces content, yet the fallback line is also emitted — the
fallback condition (line 551) ignores `detected_patterns`, so the fallback
does not appear "exactly when none of the sections produced content". -/
theorem C3_counterexample :
    "No explicit errors detected in log format." ∈
        summaryLines "timed out" (analyzeState "timed out") ∧
    "DETECTED ISSUE TYPES:" ∈ summaryLines "timed out" (analyzeState "timed out") := by
  decide

/-- C3 (amended): the fallback line appears among the rendered summary lines
exactly when the failed-step list, the error-message list and the exit-code
record list are all empty; detected patterns play no role in the condition,
and exit-code records with code `0` suppress the fallback even though they
produce no NON-ZERO EXIT CODES section.  In particular, for a log with no
recognized markers or failure signals on any line and no matching failure
regex, the rendered lines are exactly the banner header plus the fallback
block plus the trailing banner, with no other sections. -/
theorem C3_amended (logs : String) :
    (("No explicit errors detected in log format." ∈
        summaryLines logs (analyzeState logs)) ↔
      ((analyzeState logs).failed_steps = [] ∧ (analyzeState logs).error_messages = [] ∧
        (analyzeState logs).exit_codes = [])) ∧
    ((∀ line ∈ splitLines logs, quietLine line = true) → detectPatterns logs = [] →
      summaryLines logs (analyzeState logs) =
        headerLines ++
          ["No explicit errors detected in log format.",
           "Check the full log below for details.", ""] ++ trailerLines) :=
  ⟨fb_mem_summaryLines_iff logs (analyzeState logs),
   fun hq hp => summaryLines_quiet logs hq hp⟩

/-- Witness for the hypotheses of `C3_amended` at a concrete quiet log. -/
theorem C3_amended_witness :
    (∀ line ∈ splitLines "plain text", quietLine line = true) ∧
    detectPatterns "plain text" = [] ∧
    summaryLines "plain text" (analyzeState "plain text") =
      headerLines ++
        ["No explicit errors detected in log format.",
         "Check the full log below for details.", ""] ++ trailerLines :=
  ⟨by decide, by decide, (C3_amended "plain text").2 (by decide) (by decide)⟩
